import Mathlib

/-!
Verification of the hotel PMS booking core (room-status state machine,
booking lifecycle, ledger postings, night audit) as a shallow embedding
of the Python source in `app/hms_room_service.py`, `app/hms_booking_service.py`,
`app/hms_housekeeping_service.py`, `app/models.py` and `app/hms/routes.py`.

Monetary amounts (Python `Decimal`) are modelled as `Rat`; dates
(`datetime.date`) as `Int` day numbers, so `timedelta(days = n)` is `+ n`
and date subtraction `.days` is integer subtraction. Database rows touched
by an operation are passed in and returned explicitly; rows an operation
only appends (history, tasks, journal entries) are returned as lists of
newly created records. Side channels no claim depends on (the
`Notification` rows and the no-line revenue-loss memo journal entries of
`hms_room_service.py`) are omitted from the state.
-/

namespace HMS

/-- Room physical status, the five string constants used throughout the source. -/
inductive RoomStatus where
  | Vacant
  | Dirty
  | Occupied
  | Reserved
  | Maintenance
deriving DecidableEq, Repr, Fintype

/-- Booking lifecycle status, the five string constants used throughout the source. -/
inductive BookingStatus where
  | Reserved
  | CheckedIn
  | CheckedOut
  | Cancelled
  | NoShow
deriving DecidableEq, Repr, Fintype

/-- Python name of a room status, used to rebuild the source error strings. -/
def RoomStatus.pyName : RoomStatus → String
  | .Vacant => "Vacant"
  | .Dirty => "Dirty"
  | .Occupied => "Occupied"
  | .Reserved => "Reserved"
  | .Maintenance => "Maintenance"

/-- Python name of a booking status, used to rebuild the source error strings. -/
def BookingStatus.pyName : BookingStatus → String
  | .Reserved => "Reserved"
  | .CheckedIn => "CheckedIn"
  | .CheckedOut => "CheckedOut"
  | .Cancelled => "Cancelled"
  | .NoShow => "NoShow"

/-- A room row: only the `status` column takes part in the verified logic
(`app/models.py`, class `Room`). -/
structure Room where
  status : RoomStatus
deriving DecidableEq, Repr

/-- Conflict-source view of a booking row for the room-status checks
(`RoomStatusValidator.check_booking_conflicts`). -/
structure BookingRow where
  status : BookingStatus
  check_in_date : Int
  check_out_date : Int
deriving DecidableEq, Repr

/-- A housekeeping task row (`app/models.py`, class `HousekeepingTask`),
restricted to the columns the verified logic reads or writes. -/
structure HousekeepingTask where
  task_type : String
  priority : String
  status : String
  notes : String
deriving DecidableEq, Repr

/-- A room-service order row, restricted to its `status` column. -/
structure RoomServiceOrder where
  status : String
deriving DecidableEq, Repr

/-- A maintenance-issue row, restricted to `status` and `priority`. -/
structure MaintenanceIssue where
  status : String
  priority : String
deriving DecidableEq, Repr

/-- The rows referencing the room under change that the conflict checks of
`hms_room_service.py` query (each query filters by the room id; here the
lists hold exactly the rows of that room). -/
structure RoomCtx where
  bookings : List BookingRow
  tasks : List HousekeepingTask
  orders : List RoomServiceOrder
  issues : List MaintenanceIssue
deriving DecidableEq, Repr

/-- Empty conflict context: no bookings, tasks, orders or issues reference the room. -/
def RoomCtx.empty : RoomCtx := ⟨[], [], [], []⟩

/-- Transition table `VALID_ROOM_TRANSITIONS` of `app/hms_room_service.py`
lines 35-41. -/
def VALID_ROOM_TRANSITIONS : RoomStatus → List RoomStatus
  | .Vacant => [.Dirty, .Reserved, .Maintenance, .Occupied]
  | .Dirty => [.Vacant, .Maintenance]
  | .Occupied => [.Dirty, .Maintenance]
  | .Reserved => [.Occupied, .Vacant, .Dirty, .Maintenance]
  | .Maintenance => [.Vacant, .Dirty]

/-- Blocked-edge table `BLOCKED_TRANSITIONS` of `app/hms_room_service.py`
lines 44-48, as a partial map from an edge to its rejection reason. -/
def BLOCKED_TRANSITIONS : RoomStatus → RoomStatus → Option String
  | .Occupied, .Vacant => some ("Cannot mark occupied room as vacant. Must check out guest first.")
  | .Dirty, .Occupied => some ("Cannot assign guest to dirty room. Must clean first.")
  | .Dirty, .Reserved => some ("Cannot reserve dirty room. Must clean first.")
  | _, _ => none

/-- Edge of the room state machine that §4.1 permits: in the transition
table and not explicitly blocked. -/
def roomEdgeAllowed (current new : RoomStatus) : Prop :=
  new ∈ VALID_ROOM_TRANSITIONS current ∧ BLOCKED_TRANSITIONS current new = none

instance (current new : RoomStatus) : Decidable (roomEdgeAllowed current new) := by
  unfold roomEdgeAllowed; infer_instance

namespace RoomStatusValidator

/-- Embeds `RoomStatusValidator.validate_transition`
(`app/hms_room_service.py` lines 68-90): blocked edges are rejected with
their table reason, edges outside the allowed list with a generic message. -/
def validate_transition (current_status new_status : RoomStatus) : Bool × String :=
  match BLOCKED_TRANSITIONS current_status new_status with
  | some reason => (false, reason)
  | none =>
    if new_status ∈ VALID_ROOM_TRANSITIONS current_status then
      (true, "")
    else
      (false, "Cannot transition from " ++ current_status.pyName ++ " to " ++ new_status.pyName)

/-- Embeds `check_booking_conflicts` (lines 92-122): marking Maintenance is
rejected when a Reserved booking on the room has `check_in_date` within 7
days of today and `check_out_date` not in the past. -/
def check_booking_conflicts (ctx : RoomCtx) (new_status : RoomStatus) (today : Int) :
    Bool × String :=
  if new_status = .Maintenance then
    match ctx.bookings.find? (fun b =>
        b.status = BookingStatus.Reserved && b.check_in_date ≤ today + 7 &&
        b.check_out_date ≥ today) with
    | some _ => (false, "Room has upcoming booking")
    | none => (true, "")
  else (true, "")

/-- Embeds `check_housekeeping_conflicts` (lines 124-146): a room cannot be
marked Vacant while a housekeeping task on it is in progress. -/
def check_housekeeping_conflicts (ctx : RoomCtx) (new_status : RoomStatus) : Bool × String :=
  if new_status = .Vacant then
    match ctx.tasks.find? (fun t => t.status = "in_progress") with
    | some _ => (false, "Cleaning task in progress. Wait for completion.")
    | none => (true, "")
  else (true, "")

/-- Embeds `check_room_service_conflicts` (lines 148-170): a room cannot be
marked Vacant while a room-service order for it is pending, preparing,
ready or out for delivery. -/
def check_room_service_conflicts (ctx : RoomCtx) (new_status : RoomStatus) : Bool × String :=
  if new_status = .Vacant then
    match ctx.orders.find? (fun o =>
        o.status ∈ ["pending", "preparing", "ready", "out_for_delivery"]) with
    | some _ => (false, "Pending room service order. Complete or cancel first.")
    | none => (true, "")
  else (true, "")

/-- Embeds `check_maintenance_conflicts` (lines 172-195): a room cannot be
marked Vacant or Occupied while a critical maintenance issue is open. -/
def check_maintenance_conflicts (ctx : RoomCtx) (new_status : RoomStatus) : Bool × String :=
  if new_status ∈ [RoomStatus.Vacant, RoomStatus.Occupied] then
    match ctx.issues.find? (fun i =>
        (i.status ∈ ["reported", "in_progress"]) && i.priority = "critical") with
    | some _ => (false, "Critical maintenance issue open")
    | none => (true, "")
  else (true, "")

/-- Embeds `comprehensive_validate` (lines 197-234): the five checks run in
order and the first failure aborts with its reason. -/
def comprehensive_validate (room : Room) (ctx : RoomCtx) (new_status : RoomStatus)
    (today : Int) : Bool × String :=
  let r1 := validate_transition room.status new_status
  if r1.1 = false then (false, r1.2) else
  let r2 := check_booking_conflicts ctx new_status today
  if r2.1 = false then (false, r2.2) else
  let r3 := check_housekeeping_conflicts ctx new_status
  if r3.1 = false then (false, r3.2) else
  let r4 := check_room_service_conflicts ctx new_status
  if r4.1 = false then (false, r4.2) else
  let r5 := check_maintenance_conflicts ctx new_status
  if r5.1 = false then (false, r5.2) else
  (true, "All validations passed")

end RoomStatusValidator

/-- Result of `RoomManagementService.change_room_status`: the success flag
and message the route receives, the room row after the call, and the
`RoomStatusHistory` and `HousekeepingTask` rows the call created. -/
structure RoomChangeResult where
  success : Bool
  message : String
  room : Room
  newHistory : List (RoomStatus × RoomStatus)
  newTasks : List HousekeepingTask
deriving DecidableEq, Repr

namespace RoomManagementService

/-- Embeds `RoomManagementService.change_room_status`
(`app/hms_room_service.py` lines 496-565): validate comprehensively, fail
fast leaving the row untouched, otherwise update the status, append one
old-to-new history record, and auto-create a high-priority checkout
cleaning task on the Occupied-to-Dirty edge. The notification rows and the
revenue-loss memo entries (steps 3, 4 and 7 of the source) carry no state
any claim reads and are omitted. -/
def change_room_status (room : Room) (ctx : RoomCtx) (new_status : RoomStatus)
    (reason : String) (today : Int) : RoomChangeResult :=
  let v := RoomStatusValidator.comprehensive_validate room ctx new_status today
  if v.1 = false then
    { success := false, message := "Validation failed: " ++ v.2, room := room,
      newHistory := [], newTasks := [] }
  else
    let old_status := room.status
    let room' : Room := { room with status := new_status }
    let tasks :=
      if new_status = RoomStatus.Dirty ∧ old_status = RoomStatus.Occupied then
        [⟨"checkout_clean", "high", "pending", "Checkout cleaning. Reason: " ++ reason⟩]
      else ([] : List HousekeepingTask)
    { success := true,
      message := "Room status changed from " ++ old_status.pyName ++ " to " ++ new_status.pyName,
      room := room', newHistory := [(old_status, new_status)], newTasks := tasks }

end RoomManagementService

/-- Transition table `VALID_STATUS_TRANSITIONS` of
`app/hms_housekeeping_service.py` lines 33-39. It differs from
`VALID_ROOM_TRANSITIONS`: the housekeeping table has no Reserved-to-Maintenance
edge and no blocked-edge map. -/
def VALID_STATUS_TRANSITIONS : RoomStatus → List RoomStatus
  | .Vacant => [.Dirty, .Reserved, .Maintenance, .Occupied]
  | .Dirty => [.Vacant, .Maintenance]
  | .Occupied => [.Dirty, .Maintenance]
  | .Reserved => [.Occupied, .Vacant, .Dirty]
  | .Maintenance => [.Vacant, .Dirty]

namespace RoomStatusManager

/-- Embeds `RoomStatusManager.validate_transition`
(`app/hms_housekeeping_service.py` lines 79-99): same-status changes are
rejected, then membership in `VALID_STATUS_TRANSITIONS` is required. -/
def validate_transition (current_status new_status : RoomStatus) : Bool × String :=
  if current_status = new_status then
    (false, "Room is already in this status")
  else if new_status ∈ VALID_STATUS_TRANSITIONS current_status then
    (true, "")
  else
    (false, "Cannot transition from " ++ current_status.pyName ++ " to " ++ new_status.pyName)

/-- Embeds `RoomStatusManager.can_check_in` (lines 101-123): a room is
check-in ready exactly when its physical status is Vacant or Reserved. -/
def can_check_in (room : Room) : Bool × String :=
  match room.status with
  | .Vacant => (true, "")
  | .Dirty => (false, "Room needs cleaning before check-in")
  | .Occupied => (false, "Room is currently occupied")
  | .Maintenance => (false, "Room is under maintenance")
  | .Reserved => (true, "")

/-- Embeds `RoomStatusManager.change_status` (lines 140-181): validates the
transition, then updates the row and appends one old-to-new
`RoomStatusHistory` record; the failed case leaves the row untouched. -/
def change_status (room : Room) (new_status : RoomStatus) :
    (Bool × String) × Room × List (RoomStatus × RoomStatus) :=
  let v := validate_transition room.status new_status
  if v.1 = false then
    ((false, v.2), room, [])
  else
    let old_status := room.status
    ((true, "Room status changed from " ++ old_status.pyName ++ " to " ++ new_status.pyName),
      { room with status := new_status }, [(old_status, new_status)])

end RoomStatusManager

namespace CheckoutProcessor

/-- Embeds `CheckoutProcessor.process_checkout`
(`app/hms_housekeeping_service.py` lines 716-753): pushes the room to
Dirty through `RoomStatusManager.change_status` (discarding its result, as
the source does) and creates one high-priority pending checkout-cleaning
task, which it returns. -/
def process_checkout (room : Room) :
    HousekeepingTask × Room × List (RoomStatus × RoomStatus) :=
  let r := RoomStatusManager.change_status room RoomStatus.Dirty
  let task : HousekeepingTask :=
    ⟨"checkout_clean", "high", "pending", "Checkout cleaning"⟩
  (task, r.2.1, r.2.2)

end CheckoutProcessor

/-- An invoice row (`app/models.py`, class `Invoice`), restricted to the
columns the verified logic reads or writes. -/
structure Invoice where
  total : Rat
  status : String
deriving DecidableEq, Repr

/-- A booking row (`app/models.py`, class `Booking`), restricted to the
columns the verified logic reads or writes. `payments` holds the `amount`
column of every `Payment` row of the booking, in creation order (the
source accesses them through the `booking.payments` relationship);
`invoice` is the booking's one invoice when it exists. `room_rate` models
`booking.room.room_type.base_price`: `none` when the booking has no room
or the room no room type. The three `has_`/`cancelled` booleans model
whether the corresponding nullable timestamp column is set. -/
structure Booking where
  status : BookingStatus
  check_in_date : Int
  check_out_date : Int
  total_amount : Rat
  amount_paid : Rat
  balance : Rat
  payments : List Rat
  invoice : Option Invoice
  room_rate : Option Rat
  has_check_in_actual : Bool
  has_check_out_actual : Bool
  cancelled : Bool
deriving DecidableEq, Repr

/-- Embeds `Booking.calculate_balance` (`app/models.py` lines 302-307):
`amount_paid` becomes the sum over every payment row of the booking (fees
and refunds included, with no soft-delete filter) and `balance` becomes
`total_amount` minus that sum. -/
def Booking.calculate_balance (b : Booking) : Booking :=
  let total_paid := b.payments.foldl (· + ·) 0
  { b with amount_paid := total_paid, balance := b.total_amount - total_paid }

/-- Transition table `BOOKING_STATUS_TRANSITIONS` of
`app/hms_booking_service.py` lines 38-44. -/
def BOOKING_STATUS_TRANSITIONS : BookingStatus → List BookingStatus
  | .Reserved => [.CheckedIn, .Cancelled, .NoShow]
  | .CheckedIn => [.CheckedOut]
  | .CheckedOut => []
  | .Cancelled => []
  | .NoShow => []

namespace BookingStateMachine

/-- Embeds `BookingStateMachine.validate_transition`
(`app/hms_booking_service.py` lines 67-87): same-status transitions are
rejected, then membership in `BOOKING_STATUS_TRANSITIONS` is required;
rejections carry a reason string and acceptance an empty one. -/
def validate_transition (current_status new_status : BookingStatus) : Bool × String :=
  if current_status = new_status then
    (false, "Booking is already in this status")
  else if new_status ∈ BOOKING_STATUS_TRANSITIONS current_status then
    (true, "")
  else
    (false, "Cannot transition from " ++ current_status.pyName ++ " to " ++ new_status.pyName)

/-- Embeds `BookingStateMachine.change_status` (lines 89-129): validates,
then sets the status and records the actual check-in / check-out /
cancellation timestamp matching the new status. -/
def change_status (booking : Booking) (new_status : BookingStatus) :
    (Bool × String) × Booking :=
  let v := validate_transition booking.status new_status
  if v.1 = false then
    ((false, v.2), booking)
  else
    let old_status := booking.status
    let b1 := { booking with status := new_status }
    let b2 :=
      match new_status with
      | .CheckedIn => { b1 with has_check_in_actual := true }
      | .CheckedOut => { b1 with has_check_out_actual := true }
      | .Cancelled => { b1 with cancelled := true }
      | _ => b1
    ((true, "Booking status changed from " ++ old_status.pyName ++ " to " ++ new_status.pyName),
      b2)

end BookingStateMachine

/-- A journal line (`app/models.py`, class `JournalLine`); the account is
identified by its chart-of-accounts name, which the source looks up or
auto-creates per hotel before posting. -/
structure JournalLine where
  account : String
  debit : Rat
  credit : Rat
deriving DecidableEq, Repr

/-- A journal entry (`app/models.py`, class `JournalEntry`) together with
the lines inserted against it (`journal_entry_id` foreign key). -/
structure JournalEntry where
  reference : String
  lines : List JournalLine
deriving DecidableEq, Repr

/-- Sum of the debit column over the lines of an entry. -/
def JournalEntry.debitTotal (e : JournalEntry) : Rat :=
  (e.lines.map JournalLine.debit).foldl (· + ·) 0

/-- Sum of the credit column over the lines of an entry. -/
def JournalEntry.creditTotal (e : JournalEntry) : Rat :=
  (e.lines.map JournalLine.credit).foldl (· + ·) 0

namespace AccountingIntegrationService

/-- Embeds `AccountingIntegrationService.create_invoice`
(`app/hms_booking_service.py` lines 272-300): one invoice per booking,
created with the booking total and status Unpaid. -/
def create_invoice (total_amount : Rat) : Invoice :=
  { total := total_amount, status := "Unpaid" }

/-- Embeds `AccountingIntegrationService.create_payment_journal_entry`
(`app/hms_booking_service.py` lines 350-425): one entry per payment, a
debit line on the Cash asset account and a credit line on the Room Revenue
revenue account, both for the payment amount; both accounts are fetched or
created by name first. The payment method plays no part. -/
def create_payment_journal_entry (amount : Rat) : JournalEntry :=
  { reference := "PAY",
    lines := [⟨"Cash", amount, 0⟩, ⟨"Room Revenue", 0, amount⟩] }

/-- Embeds the journal entry the `bookings_payment` route posts inline
(`app/hms/routes.py` lines 1122-1185), the other code path by which a
payment is recorded: identical shape, debit Cash and credit Room Revenue
for the amount, whatever the submitted payment method. -/
def bookings_payment_journal_entry (amount : Rat) : JournalEntry :=
  { reference := "PAY",
    lines := [⟨"Cash", amount, 0⟩, ⟨"Room Revenue", 0, amount⟩] }

/-- The reversing entry `process_refund` posts
(`app/hms_booking_service.py` lines 459-507): debit Room Revenue and
credit Cash for the absolute refund amount. -/
def refund_journal_entry (amount : Rat) : JournalEntry :=
  { reference := "REFUND",
    lines := [⟨"Room Revenue", |amount|, 0⟩, ⟨"Cash", 0, |amount|⟩] }

/-- Embeds `AccountingIntegrationService.process_refund`
(`app/hms_booking_service.py` lines 427-512): raises (`none`) when the
booking has no invoice; otherwise records a negative payment row for the
absolute amount, posts the reversing journal entry when the Room Revenue
and Cash accounts both exist (and silently posts nothing otherwise), and
recomputes the booking balance. -/
def process_refund (b : Booking) (amount : Rat) (accounts_exist : Bool) :
    Option (Booking × Option JournalEntry) :=
  match b.invoice with
  | none => none
  | some _ =>
    let b1 := { b with payments := b.payments ++ [-(|amount|)] }
    let entry := if accounts_exist then some (refund_journal_entry amount) else none
    some (b1.calculate_balance, entry)

/-- Embeds `AccountingIntegrationService.post_cancellation_fee`
(`app/hms_booking_service.py` lines 514-551): raises (`none`) when the
booking has no invoice; otherwise records the fee as a positive `Payment`
row, adds it to the invoice total, sets the invoice status from the stale
pre-fee balance, and recomputes the booking balance (which, summing the
fee row as money received, nets the fee out again). -/
def post_cancellation_fee (b : Booking) (fee_amount : Rat) : Option Booking :=
  match b.invoice with
  | none => none
  | some inv =>
    let b1 := { b with payments := b.payments ++ [fee_amount] }
    let inv' : Invoice :=
      { total := inv.total + fee_amount,
        status := if b.balance > 0 then "Unpaid" else "Paid" }
    some ({ b1 with invoice := some inv' }.calculate_balance)

end AccountingIntegrationService

namespace RoomStatusService

/-- Embeds `RoomStatusService.reserve_room`
(`app/hms_booking_service.py` lines 142-174): rejects Occupied and
Maintenance rooms; otherwise succeeds without touching the room row (a
reservation is logical, the physical status is unchanged). -/
def reserve_room (room : Room) : Bool × String :=
  if room.status = RoomStatus.Occupied then
    (false, "Cannot reserve an occupied room")
  else if room.status = RoomStatus.Maintenance then
    (false, "Cannot reserve a room under maintenance")
  else
    (true, "Room reserved for booking")

/-- Embeds `RoomStatusService.check_in_room` (lines 176-203): re-validates
readiness with `can_check_in`, then moves the room to Occupied through
`RoomStatusManager.change_status`. -/
def check_in_room (room : Room) : (Bool × String) × Room × List (RoomStatus × RoomStatus) :=
  let c := RoomStatusManager.can_check_in room
  if c.1 = false then
    ((false, "Room not ready: " ++ c.2), room, [])
  else
    RoomStatusManager.change_status room RoomStatus.Occupied

/-- Embeds `RoomStatusService.check_out_room` (lines 205-224): delegates to
`CheckoutProcessor.process_checkout`; the only failure mode of the source
is a raised exception, which the embedding has none of, so it always
reports success with the created cleaning task. -/
def check_out_room (room : Room) :
    (Bool × String) × Room × List (RoomStatus × RoomStatus) × List HousekeepingTask :=
  let r := CheckoutProcessor.process_checkout room
  ((true, "Checkout complete. Cleaning task created"), r.2.1, r.2.2, [r.1])

/-- Embeds `RoomStatusService.release_room` (lines 226-259): an Occupied
room is pushed to Dirty (never forced Vacant); any other status is left
alone. -/
def release_room (room : Room) :
    (Bool × String) × Room × List (RoomStatus × RoomStatus) :=
  if room.status = RoomStatus.Occupied then
    let r := RoomStatusManager.change_status room RoomStatus.Dirty
    ((true, "Room marked Dirty - requires cleaning"), r.2.1, r.2.2)
  else
    ((true, "Room released from booking"), room, [])

end RoomStatusService

/-- Tiered cancellation-fee policy `CANCELLATION_POLICY` of
`app/hms_booking_service.py` lines 47-51, scanned in order exactly as
`cancel_booking` does: the first tier whose `days_before` bound the
days-until-check-in meets wins, and the loop's initial value 1.0 is kept
when no tier matches (only possible for negative day counts, which the
0-day tier otherwise catches). -/
def cancellation_fee_percent (days_until_checkin : Int) : Rat :=
  if days_until_checkin ≥ 7 then 0
  else if days_until_checkin ≥ 3 then 1 / 2
  else if days_until_checkin ≥ 0 then 1
  else 1

/-- The availability query of `BookingService.create_booking`
(`app/hms_booking_service.py` lines 657-663): a row conflicts when it is
Reserved or CheckedIn and its date range overlaps the requested
half-open range. -/
def overlapsRequest (check_in_date check_out_date : Int) (ob : BookingRow) : Bool :=
  (ob.status = BookingStatus.Reserved || ob.status = BookingStatus.CheckedIn) &&
  ob.check_in_date < check_out_date && ob.check_out_date > check_in_date

namespace BookingService

/-- Embeds `BookingService.create_booking`
(`app/hms_booking_service.py` lines 625-706) for a chosen room with
nightly rate `base_price` (`room.room_type.base_price`). `existing` holds
the booking rows of the same room and hotel, against which the overlap
query runs. Failures return no booking and a reason; the reserve-room
failure also rolls the freshly added row back, so no state survives it.
On success the booking carries the invoice created for it (total, Unpaid). -/
def create_booking (existing : List BookingRow) (room : Room)
    (check_in_date check_out_date : Int) (base_price : Rat) : Option Booking × String :=
  if check_out_date ≤ check_in_date then
    (none, "Check-out date must be after check-in date")
  else if (existing.find? (overlapsRequest check_in_date check_out_date)).isSome then
    (none, "Room is already booked for these dates")
  else
    let nights := check_out_date - check_in_date
    let total := base_price * (nights : Rat)
    let booking : Booking :=
      { status := BookingStatus.Reserved, check_in_date := check_in_date,
        check_out_date := check_out_date, total_amount := total, amount_paid := 0,
        balance := 0, payments := [], invoice := none, room_rate := some base_price,
        has_check_in_actual := false, has_check_out_actual := false, cancelled := false }
    let r := RoomStatusService.reserve_room room
    if r.1 = false then
      (none, r.2)
    else
      (some { booking with
          invoice := some (AccountingIntegrationService.create_invoice total) },
        "Booking created successfully")

/-- Embeds `BookingService.check_in` (`app/hms_booking_service.py` lines
708-754): requires a Reserved booking and a check-in-ready room, moves the
booking to CheckedIn (recording the actual check-in time), then the room
to Occupied; if the room transition fails the source assigns the booking
status back to Reserved (only the status) and reports failure. -/
def check_in (booking : Booking) (room : Room) :
    (Bool × String) × Booking × Room × List (RoomStatus × RoomStatus) :=
  if booking.status ≠ BookingStatus.Reserved then
    ((false, "Cannot check in booking with status " ++ booking.status.pyName),
      booking, room, [])
  else
    let c := RoomStatusManager.can_check_in room
    if c.1 = false then
      ((false, "Room not ready: " ++ c.2), booking, room, [])
    else
      let r1 := BookingStateMachine.change_status booking BookingStatus.CheckedIn
      if r1.1.1 = false then
        ((false, r1.1.2), booking, room, [])
      else
        let r2 := RoomStatusService.check_in_room room
        if r2.1.1 = false then
          ((false, r2.1.2), { r1.2 with status := BookingStatus.Reserved }, room, [])
        else
          ((true, "Guest checked in successfully"), r1.2, r2.2.1, r2.2.2)

/-- Embeds `BookingService.check_out` (`app/hms_booking_service.py` lines
756-799): requires a CheckedIn booking, recomputes the balance, blocks on
a positive balance, otherwise moves the booking to CheckedOut (recording
the actual check-out time) and runs the checkout path on the room
(Occupied to Dirty plus a checkout-cleaning task). -/
def check_out (booking : Booking) (room : Room) :
    (Bool × String) × Booking × Room ×
      List (RoomStatus × RoomStatus) × List HousekeepingTask :=
  if booking.status ≠ BookingStatus.CheckedIn then
    ((false, "Cannot check out booking with status " ++ booking.status.pyName),
      booking, room, [], [])
  else
    let b1 := booking.calculate_balance
    if b1.balance > 0 then
      ((false, "Outstanding balance. Please collect payment before checkout."),
        b1, room, [], [])
    else
      let r1 := BookingStateMachine.change_status b1 BookingStatus.CheckedOut
      if r1.1.1 = false then
        ((false, r1.1.2), b1, room, [], [])
      else
        let r2 := RoomStatusService.check_out_room room
        if r2.1.1 = false then
          ((false, r2.1.2), { r1.2 with status := BookingStatus.CheckedIn }, room, [], [])
        else
          ((true, "Guest checked out successfully"), r1.2, r2.2.1, r2.2.2.1, r2.2.2.2)

/-- Embeds `BookingService.cancel_booking` (`app/hms_booking_service.py`
lines 801-857): requires a Reserved booking; computes the tiered fee from
days until check-in; moves the booking to Cancelled; posts the fee when
positive; recomputes the balance and refunds its absolute value when
negative; releases the room. `accounts_exist` is threaded to the refund
posting. `none` models the ValueError raised when a fee or refund must be
posted for a booking without an invoice. -/
def cancel_booking (booking : Booking) (room : Room) (today : Int)
    (accounts_exist : Bool) :
    Option ((Bool × String) × Booking × Room ×
      List (RoomStatus × RoomStatus) × List JournalEntry) :=
  if booking.status ≠ BookingStatus.Reserved then
    some ((false, "Cannot cancel booking with status " ++ booking.status.pyName),
      booking, room, [], [])
  else
    let days_until_checkin := booking.check_in_date - today
    let cancellation_fee := booking.total_amount * cancellation_fee_percent days_until_checkin
    let r1 := BookingStateMachine.change_status booking BookingStatus.Cancelled
    if r1.1.1 = false then
      some ((false, r1.1.2), booking, room, [], [])
    else
      match (if cancellation_fee > 0 then
              AccountingIntegrationService.post_cancellation_fee r1.2 cancellation_fee
             else some r1.2) with
      | none => none
      | some b2 =>
        let b3 := b2.calculate_balance
        match (if b3.balance < 0 then
                AccountingIntegrationService.process_refund b3 (|b3.balance|) accounts_exist
               else some (b3, none)) with
        | none => none
        | some br =>
          let rel := RoomStatusService.release_room room
          some ((true, "Booking cancelled"), br.1, rel.2.1, rel.2.2, br.2.toList)

end BookingService

/-- The business-date row of a hotel (`app/models.py`, class `BusinessDate`). -/
structure BusinessDate where
  current_business_date : Int
  is_closed : Bool
deriving DecidableEq, Repr

/-- A night-audit log row (`app/models.py`, class `NightAuditLog`),
restricted to the status and error text; the row is created `running` and
completed in the same request, so only its final state is recorded here. -/
structure NightAuditLogRec where
  status : String
  errors : Option String
deriving DecidableEq, Repr

/-- Outcome of the night-audit route visible to the caller: the distinct
already-closed rejection (warning flash and redirect at
`app/hms/routes.py` lines 3508-3516), or completion carrying the posted
revenue and the number of rooms charged. -/
inductive AuditOutcome where
  | dayAlreadyClosed
  | completed (revenue_posted : Rat) (rooms_charged : Nat)
deriving DecidableEq, Repr

/-- The per-hotel state the night audit reads and writes: the business-date
row (if one exists yet), the booking rows, the journal, and the audit log. -/
structure AuditState where
  biz_date : Option BusinessDate
  bookings : List Booking
  entries : List JournalEntry
  audit_logs : List NightAuditLogRec
deriving DecidableEq, Repr

/-- The journal entry the night audit posts per charged room
(`app/hms/routes.py` lines 3567-3591): debit Accounts Receivable and
credit Room Revenue, each for one night's room rate. -/
def night_audit_charge_entry (room_rate : Rat) : JournalEntry :=
  { reference := "NIGHT-AUDIT",
    lines := [⟨"Accounts Receivable", room_rate, 0⟩, ⟨"Room Revenue", 0, room_rate⟩] }

/-- The body of the night audit's charging loop for one CheckedIn booking
(`app/hms/routes.py` lines 3554-3597): skipped without posting anything
when the booking has no room or room type, a non-positive rate, or no
invoice; otherwise the invoice total and the booking balance grow by the
rate, the invoice is marked Unpaid, and one balanced AR / Room Revenue
entry is posted. Returns the updated booking, the new entries, the revenue
posted and the rooms-charged increment. -/
def charge_booking (b : Booking) : Booking × List JournalEntry × Rat × Nat :=
  match b.room_rate with
  | none => (b, [], 0, 0)
  | some rate =>
    if rate > 0 then
      match b.invoice with
      | some inv =>
        ({ b with
            invoice := some { total := inv.total + rate, status := "Unpaid" },
            balance := b.balance + rate },
          [night_audit_charge_entry rate], rate, 1)
      | none => (b, [], 0, 0)
    else (b, [], 0, 0)

/-- The night audit's charging loop over all bookings: the source queries
the CheckedIn ones and charges each; bookings in any other status are left
untouched. Entries, revenue and counts accumulate in booking order. -/
def charge_all : List Booking → List Booking × List JournalEntry × Rat × Nat
  | [] => ([], [], 0, 0)
  | b :: rest =>
    let step := if b.status = BookingStatus.CheckedIn then charge_booking b else (b, [], 0, 0)
    let tail := charge_all rest
    (step.1 :: tail.1, step.2.1 ++ tail.2.1, step.2.2.1 + tail.2.2.1, step.2.2.2 + tail.2.2.2)

/-- Embeds the `run_night_audit` route (`app/hms/routes.py` lines
3436-3656). In order: get or create the business-date row (created open on
today); reject with the distinct already-closed outcome when it is closed,
completing the audit log as failed with the text the source writes and
touching nothing else; otherwise charge every CheckedIn booking, close the
business day and set `current_business_date` to the calendar day after
today, and complete the audit log. The pre-close warning counts annotate
the log without blocking and per-room exceptions cannot arise in the
embedding, so the completed log status is always `success`. -/
def run_night_audit (today : Int) (st : AuditState) : AuditOutcome × AuditState :=
  let bd := st.biz_date.getD { current_business_date := today, is_closed := false }
  if bd.is_closed then
    (AuditOutcome.dayAlreadyClosed,
      { st with
          biz_date := some bd,
          audit_logs := st.audit_logs ++ [⟨"failed", some ("Day already closed")⟩] })
  else
    let r := charge_all st.bookings
    (AuditOutcome.completed r.2.2.1 r.2.2.2,
      { biz_date := some { current_business_date := today + 1, is_closed := true },
        bookings := r.1,
        entries := st.entries ++ r.2.1,
        audit_logs := st.audit_logs ++ [⟨"success", none⟩] })

/-- Modelled from the spec: the posting shape §4.3 asserts for a received
payment — a debit on Cash, Bank or Rooms Receivable and a credit on
Accounts Receivable, each for the payment amount. Stated over the entry a
payment produces, to be compared with the entry the source actually
builds. -/
def spec_payment_entry_shape (e : JournalEntry) (amount : Rat) : Prop :=
  (∃ l ∈ e.lines, l.account ∈ ["Cash", "Bank", "Rooms Receivable"] ∧
    l.debit = amount ∧ l.credit = 0) ∧
  (∃ l ∈ e.lines, l.account = "Accounts Receivable" ∧ l.credit = amount ∧ l.debit = 0)

/-- Concrete CheckedIn booking at room rate 50,000 after two posted nights,
used as the one in-house stay of Scenario E (§8). -/
def scenarioEBooking : Booking :=
  { status := BookingStatus.CheckedIn, check_in_date := -1, check_out_date := 2,
    total_amount := 150000, amount_paid := 0, balance := 150000, payments := [],
    invoice := some ⟨150000, "Unpaid"⟩, room_rate := some 50000,
    has_check_in_actual := true, has_check_out_actual := false, cancelled := false }

/-- Hotel state for Scenario E: one CheckedIn booking, open business date. -/
def scenarioEState : AuditState :=
  { biz_date := some ⟨0, false⟩, bookings := [scenarioEBooking],
    entries := [], audit_logs := [] }

/-- Hotel state whose business date is already closed. -/
def closedDayState : AuditState :=
  { biz_date := some ⟨0, true⟩, bookings := [scenarioEBooking],
    entries := [], audit_logs := [] }

/-- Concrete Reserved booking of Scenario D (§8): total_amount 200,000,
nothing paid, two days before check-in when today is day 0. -/
def scenarioDBooking : Booking :=
  { status := BookingStatus.Reserved, check_in_date := 2, check_out_date := 4,
    total_amount := 200000, amount_paid := 0, balance := 200000, payments := [],
    invoice := some ⟨200000, "Unpaid"⟩, room_rate := some 100000,
    has_check_in_actual := false, has_check_out_actual := false, cancelled := false }

/-- Concrete CheckedIn, fully paid booking of Scenario C (§8). -/
def scenarioCBooking : Booking :=
  { status := BookingStatus.CheckedIn, check_in_date := 0, check_out_date := 3,
    total_amount := 300000, amount_paid := 300000, balance := 0, payments := [300000],
    invoice := some ⟨300000, "Paid"⟩, room_rate := some 100000,
    has_check_in_actual := true, has_check_out_actual := false, cancelled := false }

/-!
Theorems. Each claim C1-C10 of the specification review is settled below;
helper lemmas carry no claim name.
-/

/-- The room validator accepts a transition exactly on the §4.1 edge set:
in `VALID_ROOM_TRANSITIONS` and not in `BLOCKED_TRANSITIONS`. -/
lemma room_validate_transition_iff :
    ∀ current new : RoomStatus,
      (RoomStatusValidator.validate_transition current new).1 = true ↔
        roomEdgeAllowed current new := by
  decide

/-- C1: the room-status change operation succeeds only along edges of the
§4.1 table minus the blocked edges; an attempted illegal edge (equivalently,
any edge outside that set) returns failure and leaves the room status
unchanged, whatever the conflict context. The success-only-when direction
is the contrapositive of this statement. -/
theorem room_status_change_illegal_edge_rejected (room : Room) (ctx : RoomCtx)
    (new_status : RoomStatus) (reason : String) (today : Int)
    (h : ¬ roomEdgeAllowed room.status new_status) :
    (RoomManagementService.change_room_status room ctx new_status reason today).success
      = false ∧
    (RoomManagementService.change_room_status room ctx new_status reason today).room.status
      = room.status := by
  have hv : (RoomStatusValidator.validate_transition room.status new_status).1 = false := by
    cases hb : (RoomStatusValidator.validate_transition room.status new_status).1 with
    | false => rfl
    | true => exact absurd ((room_validate_transition_iff room.status new_status).mp hb) h
  constructor <;>
    simp [RoomManagementService.change_room_status,
      RoomStatusValidator.comprehensive_validate, hv]

/-- Witness for C1: marking an Occupied room Vacant (a blocked edge) fails
and leaves the room Occupied. -/
theorem room_status_change_illegal_edge_rejected_witness :
    (RoomManagementService.change_room_status ⟨RoomStatus.Occupied⟩ RoomCtx.empty
      RoomStatus.Vacant ("Manual status change") 0).success = false ∧
    (RoomManagementService.change_room_status ⟨RoomStatus.Occupied⟩ RoomCtx.empty
      RoomStatus.Vacant ("Manual status change") 0).room.status = RoomStatus.Occupied :=
  room_status_change_illegal_edge_rejected ⟨RoomStatus.Occupied⟩ RoomCtx.empty
    RoomStatus.Vacant ("Manual status change") 0 (by decide)

/-- C2: the booking transition validator accepts exactly the non-identity
edges of `BOOKING_STATUS_TRANSITIONS` (Reserved to CheckedIn, Cancelled or
NoShow; CheckedIn to CheckedOut; terminal states admit nothing), rejects
every same-state transition, returns an empty message exactly on success
(a reason string exactly on rejection), and Reserved is the successor of
no state, so no booking ever revisits Reserved after leaving it. -/
theorem booking_transitions_strictly_forward :
    ∀ current new : BookingStatus,
      ((BookingStateMachine.validate_transition current new).1 =
        (decide (current ≠ new) && (BOOKING_STATUS_TRANSITIONS current).contains new)) ∧
      (BookingStateMachine.validate_transition current current).1 = false ∧
      (decide ((BookingStateMachine.validate_transition current new).2 = "") =
        (BookingStateMachine.validate_transition current new).1) ∧
      (BOOKING_STATUS_TRANSITIONS current).contains BookingStatus.Reserved = false := by
  decide

/-- C6: re-running the night audit on an already-closed business date
returns the distinct already-closed outcome and leaves the journal, the
bookings and the business-date row untouched (only a failed audit-log row
is appended). -/
theorem night_audit_already_closed_noop (today : Int) (st : AuditState)
    (bd : BusinessDate) (hbd : st.biz_date = some bd) (hclosed : bd.is_closed = true) :
    (run_night_audit today st).1 = AuditOutcome.dayAlreadyClosed ∧
    (run_night_audit today st).2.entries = st.entries ∧
    (run_night_audit today st).2.bookings = st.bookings ∧
    (run_night_audit today st).2.biz_date = st.biz_date := by
  refine ⟨?_, ?_, ?_, ?_⟩ <;> simp [run_night_audit, hbd, hclosed]

/-- Witness for C6: the closed-day state is rejected unchanged. -/
theorem night_audit_already_closed_noop_witness :
    (run_night_audit 0 closedDayState).1 = AuditOutcome.dayAlreadyClosed ∧
    (run_night_audit 0 closedDayState).2.entries = closedDayState.entries ∧
    (run_night_audit 0 closedDayState).2.bookings = closedDayState.bookings ∧
    (run_night_audit 0 closedDayState).2.biz_date = closedDayState.biz_date :=
  night_audit_already_closed_noop 0 closedDayState ⟨0, true⟩ rfl rfl

/-- C8 counterexample: the journal entry the source posts for a payment of
100,000 does not have the shape §4.3 claims (debit Cash or Bank or Rooms
Receivable, credit Accounts Receivable): no line of it credits Accounts
Receivable at all. -/
theorem payment_entry_lacks_ar_credit :
    ¬ spec_payment_entry_shape
      (AccountingIntegrationService.create_payment_journal_entry 100000) 100000 := by
  simp only [spec_payment_entry_shape]
  decide

/-- C8 amended: for every payment received against a booking, both code
paths (the service and the inline route) post a journal entry debiting
Cash and crediting Room Revenue, each for the payment amount, whatever
the payment method; Accounts Receivable is not touched. -/
theorem payment_entry_debits_cash_credits_room_revenue (amount : Rat) :
    (AccountingIntegrationService.create_payment_journal_entry amount).lines =
      [⟨"Cash", amount, 0⟩, ⟨"Room Revenue", 0, amount⟩] ∧
    (AccountingIntegrationService.bookings_payment_journal_entry amount).lines =
      [⟨"Cash", amount, 0⟩, ⟨"Room Revenue", 0, amount⟩] :=
  ⟨rfl, rfl⟩

/-- The per-room entry the night audit posts is balanced. -/
lemma night_audit_charge_entry_balanced (rate : Rat) :
    (night_audit_charge_entry rate).debitTotal =
      (night_audit_charge_entry rate).creditTotal := by
  simp [night_audit_charge_entry, JournalEntry.debitTotal, JournalEntry.creditTotal]

/-- Every entry the charge step of the night audit produces for one booking
is balanced. -/
lemma charge_booking_entries_balanced (b : Booking) :
    ∀ e ∈ (charge_booking b).2.1, e.debitTotal = e.creditTotal := by
  intro e he
  rcases hb : b.room_rate with _ | rate <;> simp only [charge_booking, hb] at he
  · simp at he
  · by_cases hr : rate > 0
    · rw [if_pos hr] at he
      rcases hi : b.invoice with _ | inv <;> simp only [hi] at he
      · simp at he
      · simp at he
        subst he
        exact night_audit_charge_entry_balanced rate
    · rw [if_neg hr] at he
      simp at he

/-- Every entry the night audit's charging loop produces is balanced. -/
lemma charge_all_entries_balanced :
    ∀ bs : List Booking, ∀ e ∈ (charge_all bs).2.1, e.debitTotal = e.creditTotal := by
  intro bs
  induction bs with
  | nil => intro e he; simp [charge_all] at he
  | cons b rest ih =>
    intro e he
    simp only [charge_all, List.mem_append] at he
    rcases he with he | he
    · by_cases hst : b.status = BookingStatus.CheckedIn
      · rw [if_pos hst] at he
        exact charge_booking_entries_balanced b e he
      · rw [if_neg hst] at he
        simp at he
    · exact ih e he

/-- C3: every journal entry the verified operations commit balances, debit
total equal to credit total: the payment entry (service path and inline
route path), the refund reversing entry whenever `process_refund` posts
one, and every entry the night audit adds to the journal (entries already
present are the only other ones in the post-audit journal). Booking
creation and cancellation/no-show fee posting create no journal entry at
all (their embeddings return no entries), so the property holds vacuously
for them. -/
theorem posted_journal_entries_balanced :
    (∀ amount : Rat,
      (AccountingIntegrationService.create_payment_journal_entry amount).debitTotal =
        (AccountingIntegrationService.create_payment_journal_entry amount).creditTotal) ∧
    (∀ amount : Rat,
      (AccountingIntegrationService.bookings_payment_journal_entry amount).debitTotal =
        (AccountingIntegrationService.bookings_payment_journal_entry amount).creditTotal) ∧
    (∀ booking amount accounts_exist result,
      AccountingIntegrationService.process_refund booking amount accounts_exist
        = some result →
      ∀ e ∈ result.2.toList, e.debitTotal = e.creditTotal) ∧
    (∀ today : Int, ∀ st : AuditState, ∀ e ∈ (run_night_audit today st).2.entries,
      e ∈ st.entries ∨ e.debitTotal = e.creditTotal) := by
  refine ⟨?_, ?_, ?_, ?_⟩
  · intro amount
    simp [AccountingIntegrationService.create_payment_journal_entry,
      JournalEntry.debitTotal, JournalEntry.creditTotal]
  · intro amount
    simp [AccountingIntegrationService.bookings_payment_journal_entry,
      JournalEntry.debitTotal, JournalEntry.creditTotal]
  · intro booking amount accounts_exist result hres e he
    unfold AccountingIntegrationService.process_refund at hres
    rcases hi : booking.invoice with _ | inv <;> rw [hi] at hres
    · exact absurd hres (by simp)
    · rw [Option.some_inj] at hres
      subst hres
      by_cases ha : accounts_exist = true
      · rw [if_pos ha] at he
        simp at he
        subst he
        simp [AccountingIntegrationService.refund_journal_entry,
          JournalEntry.debitTotal, JournalEntry.creditTotal]
      · rw [if_neg ha] at he
        simp at he
  · intro today st e he
    unfold run_night_audit at he
    by_cases hc : (st.biz_date.getD
        { current_business_date := today, is_closed := false }).is_closed = true
    · rw [if_pos hc] at he
      exact Or.inl he
    · rw [if_neg hc] at he
      simp only [List.mem_append] at he
      rcases he with he | he
      · exact Or.inl he
      · exact Or.inr (charge_all_entries_balanced st.bookings e he)

/-- Witness for C3: the night-audit entry posted for Scenario E is in the
post-audit journal and balances. -/
theorem posted_journal_entries_balanced_witness :
    (night_audit_charge_entry 50000).debitTotal =
      (night_audit_charge_entry 50000).creditTotal :=
  (posted_journal_entries_balanced.2.2.2 0 scenarioEState
    (night_audit_charge_entry 50000) (by decide)).resolve_left (by decide)

/-- The booking a night-audit charge produces, expressed with total
functions: invoice total and balance grow by the room rate and the invoice
is re-marked Unpaid. Agrees with `charge_booking` whenever the booking has
a positive rate and an invoice. -/
def chargedBooking (b : Booking) : Booking :=
  { b with
      invoice := some { total := (b.invoice.getD ⟨0, ""⟩).total + b.room_rate.getD 0,
                        status := "Unpaid" },
      balance := b.balance + b.room_rate.getD 0 }

/-- Specification of the night audit's charging loop when every CheckedIn
booking has a room with a positive rate and an invoice: each CheckedIn
booking is charged (and the others untouched), and exactly one charge
entry per CheckedIn booking is produced, in order. -/
lemma charge_all_spec :
    ∀ bs : List Booking,
      (∀ b ∈ bs, b.status = BookingStatus.CheckedIn →
        ∃ rate inv, b.room_rate = some rate ∧ 0 < rate ∧ b.invoice = some inv) →
      (charge_all bs).1 = bs.map (fun b =>
        if b.status = BookingStatus.CheckedIn then chargedBooking b else b) ∧
      (charge_all bs).2.1 =
        (bs.filter (fun b => b.status == BookingStatus.CheckedIn)).map
          (fun b => night_audit_charge_entry (b.room_rate.getD 0)) := by
  intro bs
  induction bs with
  | nil => intro _; constructor <;> simp [charge_all]
  | cons b rest ih =>
    intro h
    obtain ⟨ih1, ih2⟩ := ih (fun x hx => h x (List.mem_cons_of_mem b hx))
    by_cases hst : b.status = BookingStatus.CheckedIn
    · obtain ⟨rate, inv, hrate, hpos, hinv⟩ := h b (List.mem_cons_self b rest) hst
      have hcb : charge_booking b = (chargedBooking b, [night_audit_charge_entry
          (b.room_rate.getD 0)], rate, 1) := by
        simp [charge_booking, chargedBooking, hrate, hinv, if_pos hpos]
      constructor
      · simp [charge_all, hst, hcb, ih1]
      · simp [charge_all, hst, hcb, ih2]
    · constructor
      · simp [charge_all, hst, ih1]
      · simp [charge_all, hst, ih2]

/-- C4: running the night audit on an open business date whose
`current_business_date` is today posts, for every currently CheckedIn
booking (each assumed to carry a room with a positive rate and an
invoice), exactly one journal entry debiting Accounts Receivable and
crediting Room Revenue for one night's room rate, raises that booking's
invoice total and its balance by that same rate, and closes the business
date while advancing `current_business_date` by exactly one day. -/
theorem night_audit_posts_revenue_and_advances
    (today : Int) (st : AuditState) (bd : BusinessDate)
    (hbd : st.biz_date = some bd) (hopen : bd.is_closed = false)
    (hcur : bd.current_business_date = today)
    (hbk : ∀ b ∈ st.bookings, b.status = BookingStatus.CheckedIn →
      ∃ rate inv, b.room_rate = some rate ∧ 0 < rate ∧ b.invoice = some inv) :
    (run_night_audit today st).2.biz_date =
      some { current_business_date := bd.current_business_date + 1, is_closed := true } ∧
    (run_night_audit today st).2.entries = st.entries ++
      (st.bookings.filter (fun b => b.status == BookingStatus.CheckedIn)).map
        (fun b => night_audit_charge_entry (b.room_rate.getD 0)) ∧
    (run_night_audit today st).2.bookings = st.bookings.map (fun b =>
      if b.status = BookingStatus.CheckedIn then chargedBooking b else b) ∧
    (∀ rate : Rat, (night_audit_charge_entry rate).lines =
      [⟨"Accounts Receivable", rate, 0⟩, ⟨"Room Revenue", 0, rate⟩]) := by
  obtain ⟨hmap, hentries⟩ := charge_all_spec st.bookings hbk
  refine ⟨?_, ?_, ?_, fun _ => rfl⟩ <;>
    simp [run_night_audit, hbd, hopen, hcur, hmap, hentries]

/-- Witness for C4, Scenario E: one CheckedIn booking at rate 50,000 and
business date open on day 0; the audit posts exactly one 50,000 entry and
advances the business date to day 1, closed. -/
theorem night_audit_posts_revenue_and_advances_witness :
    (run_night_audit 0 scenarioEState).2.entries = [night_audit_charge_entry 50000] ∧
    (run_night_audit 0 scenarioEState).2.biz_date =
      some { current_business_date := 1, is_closed := true } ∧
    (night_audit_charge_entry 50000).lines =
      [⟨"Accounts Receivable", 50000, 0⟩, ⟨"Room Revenue", 0, 50000⟩] := by
  have h := night_audit_posts_revenue_and_advances 0 scenarioEState ⟨0, false⟩ rfl rfl rfl
    (by
      intro b hb hst
      rcases List.mem_singleton.mp hb with rfl
      exact ⟨50000, ⟨150000, "Unpaid"⟩, rfl, by decide, rfl⟩)
  exact ⟨h.2.1.trans (by decide), h.1.trans (by decide), h.2.2.2 50000⟩

/-- C5 (evaluation of the code at the Scenario D input): cancelling the
Reserved Scenario D booking two days before check-in succeeds and charges
the 100% fee of 200,000, recorded as a Payment row and added onto the
invoice total, but because `calculate_balance` sums that fee row as money
received the post-fee balance is 0 — not the 200,000 owed the claim
asserts — and no refund is posted. -/
theorem cancel_scenario_d_fee_zeroes_balance :
    BookingService.cancel_booking scenarioDBooking ⟨RoomStatus.Vacant⟩ 0 true =
      some ((true, "Booking cancelled"),
        { status := BookingStatus.Cancelled, check_in_date := 2, check_out_date := 4,
          total_amount := 200000, amount_paid := 200000, balance := 0,
          payments := [200000], invoice := some ⟨400000, "Unpaid"⟩,
          room_rate := some 100000, has_check_in_actual := false,
          has_check_out_actual := false, cancelled := true },
        ⟨RoomStatus.Vacant⟩, [], []) := by
  have hs : scenarioDBooking.status = BookingStatus.Reserved := rfl
  have h1 : BookingStateMachine.change_status scenarioDBooking BookingStatus.Cancelled =
      ((true, "Booking status changed from Reserved to Cancelled"),
        { status := BookingStatus.Cancelled, check_in_date := 2, check_out_date := 4,
          total_amount := 200000, amount_paid := 0, balance := 200000, payments := [],
          invoice := some ⟨200000, "Unpaid"⟩, room_rate := some 100000,
          has_check_in_actual := false, has_check_out_actual := false,
          cancelled := true }) := rfl
  have hfee : scenarioDBooking.total_amount *
      cancellation_fee_percent scenarioDBooking.check_in_date = 200000 := by
    norm_num [scenarioDBooking, cancellation_fee_percent]
  have hpos : (0 : Rat) < 200000 := by norm_num
  have hpost : AccountingIntegrationService.post_cancellation_fee
      { status := BookingStatus.Cancelled, check_in_date := 2, check_out_date := 4,
        total_amount := 200000, amount_paid := 0, balance := 200000, payments := [],
        invoice := some ⟨200000, "Unpaid"⟩, room_rate := some 100000,
        has_check_in_actual := false, has_check_out_actual := false, cancelled := true }
      200000 =
      some
        { status := BookingStatus.Cancelled, check_in_date := 2, check_out_date := 4,
          total_amount := 200000, amount_paid := 200000, balance := 0, payments := [200000],
          invoice := some ⟨400000, "Unpaid"⟩, room_rate := some 100000,
          has_check_in_actual := false, has_check_out_actual := false,
          cancelled := true } := by
    norm_num [AccountingIntegrationService.post_cancellation_fee, Booking.calculate_balance]
  have hbal : Booking.calculate_balance
      { status := BookingStatus.Cancelled, check_in_date := 2, check_out_date := 4,
        total_amount := 200000, amount_paid := 200000, balance := 0, payments := [200000],
        invoice := some ⟨400000, "Unpaid"⟩, room_rate := some 100000,
        has_check_in_actual := false, has_check_out_actual := false, cancelled := true } =
      { status := BookingStatus.Cancelled, check_in_date := 2, check_out_date := 4,
        total_amount := 200000, amount_paid := 200000, balance := 0, payments := [200000],
        invoice := some ⟨400000, "Unpaid"⟩, room_rate := some 100000,
        has_check_in_actual := false, has_check_out_actual := false,
        cancelled := true } := by
    norm_num [Booking.calculate_balance]
  simp [BookingService.cancel_booking, hs, h1, hfee, hpos, hpost, hbal,
    RoomStatusService.release_room]

/-- C7: check-out of a CheckedIn booking in an Occupied room recomputes the
balance (total_amount minus the sum of the payment rows) immediately
before the check. A positive recomputed balance fails the operation,
leaving the booking CheckedIn and the room untouched (only the recomputed
balance persists) and creating no task; a zero recomputed balance checks
the booking out, records the actual check-out time, moves the room
Occupied to Dirty and creates one high-priority checkout-cleaning task. -/
theorem check_out_requires_recomputed_zero_balance (booking : Booking) (room : Room)
    (hb : booking.status = BookingStatus.CheckedIn)
    (hr : room.status = RoomStatus.Occupied) :
    (0 < booking.total_amount - booking.payments.foldl (· + ·) 0 →
      (BookingService.check_out booking room).1.1 = false ∧
      (BookingService.check_out booking room).2.1.status = BookingStatus.CheckedIn ∧
      (BookingService.check_out booking room).2.1.balance =
        booking.total_amount - booking.payments.foldl (· + ·) 0 ∧
      (BookingService.check_out booking room).2.2.1 = room ∧
      (BookingService.check_out booking room).2.2.2.2 = []) ∧
    (booking.total_amount - booking.payments.foldl (· + ·) 0 = 0 →
      (BookingService.check_out booking room).1.1 = true ∧
      (BookingService.check_out booking room).2.1.status = BookingStatus.CheckedOut ∧
      (BookingService.check_out booking room).2.1.has_check_out_actual = true ∧
      (BookingService.check_out booking room).2.2.1.status = RoomStatus.Dirty ∧
      (BookingService.check_out booking room).2.2.2.2 =
        [⟨"checkout_clean", "high", "pending", "Checkout cleaning"⟩]) := by
  constructor
  · intro hpos
    refine ⟨?_, ?_, ?_, ?_, ?_⟩ <;>
      simp [BookingService.check_out, hb, Booking.calculate_balance, hpos]
  · intro hzero
    refine ⟨?_, ?_, ?_, ?_, ?_⟩ <;>
      simp [BookingService.check_out, hb, hr, Booking.calculate_balance, hzero,
        BookingStateMachine.change_status, BookingStateMachine.validate_transition,
        BOOKING_STATUS_TRANSITIONS, RoomStatusService.check_out_room,
        CheckoutProcessor.process_checkout, RoomStatusManager.change_status,
        RoomStatusManager.validate_transition, VALID_STATUS_TRANSITIONS]

/-- Witness for C7, Scenario C: the fully paid CheckedIn booking checks out
of its Occupied room, the room becomes Dirty and a checkout-cleaning task
is created. -/
theorem check_out_requires_recomputed_zero_balance_witness :
    (BookingService.check_out scenarioCBooking ⟨RoomStatus.Occupied⟩).1.1 = true ∧
    (BookingService.check_out scenarioCBooking ⟨RoomStatus.Occupied⟩).2.1.status =
      BookingStatus.CheckedOut ∧
    (BookingService.check_out scenarioCBooking ⟨RoomStatus.Occupied⟩).2.2.1.status =
      RoomStatus.Dirty ∧
    (BookingService.check_out scenarioCBooking ⟨RoomStatus.Occupied⟩).2.2.2.2 =
      [⟨"checkout_clean", "high", "pending", "Checkout cleaning"⟩] := by
  have h := (check_out_requires_recomputed_zero_balance scenarioCBooking
    ⟨RoomStatus.Occupied⟩ rfl rfl).2 (by simp [scenarioCBooking])
  exact ⟨h.1, h.2.1, h.2.2.2.1, h.2.2.2.2⟩

/-- Support for C9: once `can_check_in` has accepted a room, the transition
to Occupied always succeeds, so the rollback branch of
`BookingService.check_in` (room transition failing after the booking
transition succeeded) is unreachable in sequential execution. -/
lemma can_check_in_room_transition_total (room : Room)
    (h : (RoomStatusManager.can_check_in room).1 = true) :
    (RoomStatusManager.change_status room RoomStatus.Occupied).1.1 = true := by
  cases room with
  | mk s => cases s <;> first | rfl | exact absurd h (by decide)

/-- C10: booking creation fails with the reserve-room reason whenever the
target room is physically Occupied or under Maintenance, even with valid
dates and no overlapping Reserved or CheckedIn booking on the room. -/
theorem create_booking_blocked_by_room_state (existing : List BookingRow) (room : Room)
    (check_in_date check_out_date : Int) (base_price : Rat)
    (hdates : check_in_date < check_out_date)
    (hov : existing.find? (overlapsRequest check_in_date check_out_date) = none)
    (hroom : room.status = RoomStatus.Occupied ∨ room.status = RoomStatus.Maintenance) :
    (BookingService.create_booking existing room check_in_date check_out_date base_price).1
      = none ∧
    (BookingService.create_booking existing room check_in_date check_out_date base_price).2
      = (if room.status = RoomStatus.Occupied then "Cannot reserve an occupied room"
         else "Cannot reserve a room under maintenance") := by
  have h1 : ¬ (check_out_date ≤ check_in_date) := not_le.mpr hdates
  rcases hroom with h | h <;>
    constructor <;>
      simp [BookingService.create_booking, h1, hov, RoomStatusService.reserve_room, h]

/-- Witness for C10: creating a three-night booking on an Occupied room
with no competing booking fails with the occupied-room reason. -/
theorem create_booking_blocked_by_room_state_witness :
    (BookingService.create_booking [] ⟨RoomStatus.Occupied⟩ 0 3 100000).1 = none ∧
    (BookingService.create_booking [] ⟨RoomStatus.Occupied⟩ 0 3 100000).2 =
      "Cannot reserve an occupied room" := by
  have h := create_booking_blocked_by_room_state [] ⟨RoomStatus.Occupied⟩ 0 3 100000
    (by decide) rfl (Or.inl rfl)
  exact ⟨h.1, h.2.trans (by decide)⟩

end HMS
